import Mathlib

/-!
Shallow embedding of the voice-activated recorder scripts `test.py`,
`test2.py` and `testson.py` (repository `cooyit/vadpk`), together with
proofs about the segmentation state machine, the amplitude speech
detector and the wave-file sink.

Conventions of the embedding:
* raw audio frames are lists of bytes (natural numbers below 256);
  `np.frombuffer(data, dtype=np.int16)` is modelled by `parseInt16`,
  which fails exactly when the byte count is odd (numpy raises
  `ValueError` there);
* wall-clock time (`time.time()`) is modelled by a rational timestamp
  carried on each frame; all `time.time()` calls made while processing
  one frame return that frame's timestamp;
* Python float arithmetic in the trim computation is modelled exactly
  over `ℚ`; at the magnitudes involved (sums of 16-bit samples over one
  block) float64 rounding cannot change any of the comparisons or the
  truncations performed by the scripts;
* the recognizer (`KaldiRecognizer`) is an external black box: each
  frame carries `recResult : Option Bool`, where `none` means
  `rec.AcceptWaveform(data)` returned `False` and `some b` means it
  returned `True` with `b` recording whether the result text was
  non-empty;
* a detector exception propagates out of the main loop to the scripts'
  top-level `except Exception` handler, which calls `parser.exit`; this
  is modelled by the step/run functions returning `Except.error`.
-/

namespace Vadpk

/-- Decode one little-endian 16-bit signed sample from two bytes, as
`np.frombuffer(data, dtype=np.int16)` does. -/
def toInt16 (lo hi : ℕ) : ℤ :=
  let u : ℕ := lo % 256 + 256 * (hi % 256)
  if u < 32768 then (u : ℤ) else (u : ℤ) - 65536

/-- Decode a byte string into int16 samples; `np.frombuffer` raises
`ValueError` when the buffer size is not a multiple of the element
size (2 bytes). -/
def parseInt16 : List ℕ → Except String (List ℤ)
  | [] => .ok []
  | [_] => .error "ValueError: buffer size must be a multiple of element size"
  | lo :: hi :: rest => do
    let tail ← parseInt16 rest
    pure (toInt16 lo hi :: tail)

/-- Absolute value as computed by `np.abs` on an `int16` array: the
result dtype is again `int16`, so `np.abs(-32768)` overflows back to
`-32768`. -/
def npAbs16 (x : ℤ) : ℤ :=
  if x = -32768 then -32768 else x.natAbs

/-- Sum of the numpy-int16 absolute values of a sample list. -/
def sumNpAbs (samples : List ℤ) : ℤ :=
  (samples.map npAbs16).sum

/-- Amplitude speech detector of `testson.py`:
`np.abs(np.frombuffer(data, dtype=np.int16)).mean() > threshold`.
The float comparison `mean > threshold` is modelled exactly by the
integer cross-multiplication `threshold * n < sum`; for the empty frame
numpy's mean is NaN and `NaN > threshold` is `False`, which the
cross-multiplied form also yields (`0 < 0`). -/
def is_speech (data : List ℕ) (threshold : ℤ := 500) : Except String Bool := do
  let samples ← parseInt16 data
  pure (decide (threshold * samples.length < sumNpAbs samples))

/-- One audio block as seen by the consumer loop: its raw bytes, the
wall-clock time at which the loop processes it, and the recognizer's
reaction to it (`none` = `AcceptWaveform` returned `False`,
`some b` = returned `True` with `b` = "result text non-empty"). -/
structure Frame where
  t : ℚ
  data : List ℕ
  recResult : Option Bool
deriving DecidableEq, Repr

/-- Mutable state of the `testson.py` main loop (module-level variables
`recording`, `audio_data`, `silence_start`, `last_voice_activity`,
`pre_speech_buffer`). -/
structure TSState where
  recording : Bool
  audio_data : List Frame
  silence_start : Option ℚ
  last_voice_activity : Option ℚ
  pre_speech_buffer : List Frame
deriving DecidableEq, Repr

/-- Initial state of the `testson.py` loop. -/
def initTS : TSState :=
  { recording := false, audio_data := [], silence_start := none,
    last_voice_activity := none, pre_speech_buffer := [] }

/-- Pre-roll buffer update of `testson.py` (lines 89-91): append the
frame, then `pop(0)` if the length exceeds
`buffer_duration * args.samplerate // 8000` with `buffer_duration = 1`. -/
def updateBuffer (sr : ℕ) (buf : List Frame) (f : Frame) : List Frame :=
  let buf := buf ++ [f]
  if 1 * sr / 8000 < buf.length then buf.drop 1 else buf

/-- Recognizer-based start trigger of `testson.py` (lines 122-127): if
`AcceptWaveform` returned `True` with non-empty text and we are not
recording, start recording from the pre-roll buffer plus the current
frame.  It does not touch `silence_start` or `last_voice_activity`. -/
def recogTrigger (s : TSState) (f : Frame) : TSState :=
  match f.recResult with
  | some true =>
    if s.recording then s
    else { s with recording := true,
                  audio_data := s.pre_speech_buffer ++ [f] }
  | _ => s

/-- Speech branch of `testson.py` (lines 93-101): start or continue the
recording, clear `silence_start` and stamp `last_voice_activity`. -/
def speechUpdate (s : TSState) (f : Frame) : TSState :=
  let s :=
    if s.recording then { s with audio_data := s.audio_data ++ [f] }
    else { s with recording := true,
                  audio_data := s.pre_speech_buffer ++ [f] }
  { s with silence_start := none, last_voice_activity := some f.t }

/-- Truncation `int(q)` of Python applied to a rational: rounding toward
zero. -/
def pyInt (q : ℚ) : ℤ := q.num / (q.den : ℤ)

/-- Python list slice `l[:j]` for a possibly negative index `j`. -/
def pySliceTo (l : List Frame) (j : ℤ) : List Frame :=
  if 0 ≤ j then l.take j.toNat else l.take ((l.length : ℤ) + j).toNat

/-- Trailing trim performed by `testson.py` at silence-timeout finalize
(lines 112-114):
`end_time = min(last_voice_activity + 1, current_time)`,
`frames_to_keep = int((end_time - last_voice_activity) * sr / 8000)`,
`audio_data = audio_data[:len(audio_data) - frames_to_keep]`. -/
def trimmedSegment (sr : ℕ) (audio : List Frame) (lva now : ℚ) : List Frame :=
  let end_time : ℚ := min (lva + 1) now
  let frames_to_keep : ℤ := pyInt ((end_time - lva) * sr / 8000)
  pySliceTo audio ((audio.length : ℤ) - frames_to_keep)

/-- Result of one iteration of the `testson.py` loop: either the loop
continues with a new state, or it finalized a segment (wrote it with
`write_wave` and broke out of the loop). -/
inductive Outcome where
  | next (s : TSState)
  | finalized (seg : List Frame)
deriving DecidableEq, Repr

/-- One iteration of the `testson.py` main loop (lines 86-127) on one
frame.  Order of operations follows the source: pre-roll buffer update
while not recording (88-91), amplitude verdict (93), speech/silence
branches (94-120), recognizer trigger (122-127).  A detector exception
(`ValueError` from `np.frombuffer`, or the `TypeError` from
`None + 1` when the silence timeout elapses without any
`last_voice_activity`) propagates to the top-level handler, modelled by
`Except.error`. -/
def tsStep (sr : ℕ) (s₀ : TSState) (f : Frame) : Except String Outcome :=
  let s := if s₀.recording then s₀
           else { s₀ with pre_speech_buffer := updateBuffer sr s₀.pre_speech_buffer f }
  match is_speech f.data with
  | .error e => .error e
  | .ok true => .ok (.next (recogTrigger (speechUpdate s f) f))
  | .ok false =>
    if s.recording then
      let ss := s.silence_start.getD f.t
      let s1 := { s with silence_start := some ss,
                         audio_data := s.audio_data ++ [f] }
      if 3 < f.t - ss then
        match s1.last_voice_activity with
        | none => .error "TypeError: unsupported operand type(s) for +: NoneType and int"
        | some lva => .ok (.finalized (trimmedSegment sr s1.audio_data lva f.t))
      else .ok (.next (recogTrigger s1 f))
    else .ok (.next (recogTrigger s f))

/-- Run the `testson.py` loop over a list of frames.  `Sum.inl s` means
the input was exhausted with the loop still running in state `s`;
`Sum.inr seg` means the loop finalized `seg` via the silence timeout and
broke (remaining frames are never processed). -/
def tsRun (sr : ℕ) (s : TSState) : List Frame → Except String (TSState ⊕ List Frame)
  | [] => .ok (.inl s)
  | f :: rest =>
    match tsStep sr s f with
    | .error e => .error e
    | .ok (.finalized seg) => .ok (.inr seg)
    | .ok (.next s') => tsRun sr s' rest

/-- KeyboardInterrupt handler of `testson.py` (lines 129-135): write the
accumulated `audio_data` as-is when recording, write nothing otherwise;
either way `parser.exit(0)` follows.  The first component lists the
segments written, the second is the process exit status. -/
def interruptWrites (s : TSState) : List (List Frame) × ℕ :=
  (if s.recording then [s.audio_data] else [], 0)

/-! ### The `test.py` loop (recognizer-only variant) -/

/-- Mutable state of the `test.py` main loop (`recording`, `audio_data`,
`silence_timer`).  `test.py` has no pre-roll buffer. -/
structure PState where
  recording : Bool
  audio_data : List Frame
  silence_timer : Option ℚ
deriving DecidableEq, Repr

/-- Initial state of the `test.py` loop. -/
def pInit : PState :=
  { recording := false, audio_data := [], silence_timer := none }

/-- One iteration of the `test.py` main loop (lines 80-109) on one
frame.  When `AcceptWaveform` returns `True` with non-empty text the
segment is started as `[data]` (line 88) or extended, and the silence
timer is cleared (line 91); with empty text the timer is armed at
`now + 2` (line 94) or, if armed and elapsed, the recording is written
untrimmed and the loop breaks (lines 95-101) — the frame itself is not
appended on this path.  When `AcceptWaveform` returns `False` the frame
is appended only while recording (lines 102-104).  An armed timer is a
positive wall-clock timestamp, so Python's truthiness test
`silence_timer and ...` is `isSome` here. -/
def pStep (s : PState) (f : Frame) : PState ⊕ List Frame :=
  match f.recResult with
  | some true =>
    if s.recording then
      .inl { s with audio_data := s.audio_data ++ [f], silence_timer := none }
    else
      .inl { recording := true, audio_data := [f], silence_timer := none }
  | some false =>
    if s.recording then
      match s.silence_timer with
      | none => .inl { s with silence_timer := some (f.t + 2) }
      | some timer => if timer < f.t then .inr s.audio_data else .inl s
    else .inl s
  | none =>
    if s.recording then .inl { s with audio_data := s.audio_data ++ [f] }
    else .inl s

/-- Run the `test.py` loop over a list of frames; `Sum.inr seg` means
the silence timeout finalized `seg` (written untrimmed) and broke. -/
def pRun (s : PState) : List Frame → PState ⊕ List Frame
  | [] => .inl s
  | f :: rest =>
    match pStep s f with
    | .inr seg => .inr seg
    | .inl s' => pRun s' rest

/-- KeyboardInterrupt handler of `test.py` (lines 111-117): identical
shape to the `testson.py` one. -/
def pInterruptWrites (s : PState) : List (List Frame) × ℕ :=
  (if s.recording then [s.audio_data] else [], 0)

/-! ### The wave-file sink of `test2.py` -/

/-- Contents of one wave file: the header parameters set through
`setnchannels` / `setsampwidth` / `setframerate`, and the audio frames
(frame units, one per sample for mono 16-bit audio). -/
structure WavFile where
  nchannels : ℕ
  sampwidth : ℕ
  framerate : ℕ
  frames : List ℕ
deriving DecidableEq, Repr

/-- File system: association list from file name to wave-file contents;
the most recent binding for a name wins. -/
def FS : Type := List (String × WavFile)

/-- Look up a file. -/
def fsGet (fs : FS) (name : String) : Option WavFile :=
  ((fs : List (String × WavFile)).find? (fun p => p.1 = name)).map (fun p => p.2)

/-- Create or overwrite a file (`wave.open(name, 'wb')` truncates any
existing file of that name). -/
def fsSet (fs : FS) (name : String) (w : WavFile) : FS :=
  (name, w) :: (fs : List (String × WavFile))

/-- Helper `write_wave` of `test2.py` (lines 52-58; `test.py` and
`testson.py` contain the identical function): open `filename` for
writing (truncating), set mono 16-bit parameters and the sample rate,
and write the concatenation of the byte chunks. -/
def write_wave (fs : FS) (filename : String) (data : List (List ℕ)) (samplerate : ℕ) : FS :=
  fsSet fs filename ⟨1, 2, samplerate, data.flatten⟩

/-- Chunked copy loop of `append_wave` (lines 67-71): repeatedly
`readframes(1024)` from the source until exhausted, writing each chunk
to the destination; the result is the source frames in order. -/
def copyChunks (l : List ℕ) : List ℕ :=
  if l.isEmpty then [] else l.take 1024 ++ copyChunks (l.drop 1024)
termination_by l.length
decreasing_by
  simp only [List.length_drop]
  have hne : l ≠ [] := by simp_all
  have hpos : 0 < l.length := List.length_pos.mpr hne
  omega

/-- Helper `append_wave(temp_filename, final_filename)` of `test2.py`
(lines 60-71): open the temp file for reading (error if absent), open
the FINAL file with mode `'wb'` — which truncates it — copy the temp
file's header parameters and then its frames in 1024-frame chunks.
Nothing of the previous destination content is read or kept, and no
parameter comparison is performed. -/
def append_wave (fs : FS) (temp_filename final_filename : String) : Except String FS :=
  match fsGet fs temp_filename with
  | none => .error "FileNotFoundError"
  | some temp_wf =>
    .ok (fsSet fs final_filename
      ⟨temp_wf.nchannels, temp_wf.sampwidth, temp_wf.framerate, copyChunks temp_wf.frames⟩)

/-- Finalize path of `test2.py` (lines 121-122 and 139-140): write the
accumulated chunks to `temp_output.wav`, then `append_wave` it onto the
destination. -/
def t2Finalize (fs : FS) (filename : String) (audio_data : List (List ℕ))
    (samplerate : ℕ) : Except String FS :=
  append_wave (write_wave fs "temp_output.wav" audio_data samplerate)
    "temp_output.wav" filename

/-! ### Spec-side definitions (for refinement comparisons only) -/

/-- Modelled from the spec, section 3 "Pre-roll Buffer": bounded ordered
sequence of the most recent `N` frames observed while idle, with
`N = pre-roll duration x sample rate / frame size` rounded down
(default duration 1 s, frame size 8000 samples), oldest frame evicted
on overflow.  Used only to compare implementations against the spec's
words. -/
def specPreroll (sr : ℕ) (idleFrames : List Frame) : List Frame :=
  idleFrames.foldl
    (fun buf f =>
      let buf := buf ++ [f]
      if 1 * sr / 8000 < buf.length then buf.drop 1 else buf) []

/-- Modelled from the spec, section 4.2 transition 1: on
IDLE -> RECORDING the Segment is initialized as (pre-roll buffer
contents) + (current frame). -/
def specInitSegment (sr : ℕ) (idleFrames : List Frame) (f : Frame) : List Frame :=
  specPreroll sr idleFrames ++ [f]

/-- Modelled from the spec, section 4.1 "Amplitude strategy": `speech`
iff the mean of absolute sample magnitudes over the frame is strictly
greater than the threshold; `|x|` here is the true absolute value. -/
def specAmpVerdict (samples : List ℤ) (threshold : ℤ := 500) : Bool :=
  decide (threshold * samples.length < (samples.map (fun x => (x.natAbs : ℤ))).sum)

/-! ### Concrete frames used in the evaluated scenarios -/

/-- Speech block at time `t`: one sample of value 1000 (bytes
`[232, 3]` little endian), mean absolute value 1000 > 500. -/
def spF (t : ℚ) : Frame := ⟨t, [232, 3], none⟩

/-- Silent block at time `t`: one sample of value 0. -/
def siF (t : ℚ) : Frame := ⟨t, [0, 0], none⟩

end Vadpk

namespace Vadpk

/-! ### Helper lemmas about the `testson.py` step -/

theorem recogTrigger_pre_speech_buffer (s : TSState) (f : Frame) :
    (recogTrigger s f).pre_speech_buffer = s.pre_speech_buffer := by
  rcases hb : f.recResult with _ | b
  · simp [recogTrigger, hb]
  · cases b <;> simp [recogTrigger, hb, apply_ite]

theorem recogTrigger_silence_start (s : TSState) (f : Frame) :
    (recogTrigger s f).silence_start = s.silence_start := by
  rcases hb : f.recResult with _ | b
  · simp [recogTrigger, hb]
  · cases b <;> simp [recogTrigger, hb, apply_ite]

theorem recogTrigger_of_recording {s : TSState} (f : Frame) (h : s.recording = true) :
    recogTrigger s f = s := by
  rcases hb : f.recResult with _ | b
  · simp [recogTrigger, hb]
  · cases b <;> simp [recogTrigger, hb, h]

theorem recogTrigger_id_of_not {s : TSState} {f : Frame} (h : ¬ f.recResult = some true) :
    recogTrigger s f = s := by
  rcases hb : f.recResult with _ | b
  · simp [recogTrigger, hb]
  · cases b
    · simp [recogTrigger, hb]
    · exact absurd hb h

theorem recogTrigger_start {s : TSState} {f : Frame} (hr : s.recording = false)
    (hrec : f.recResult = some true) :
    recogTrigger s f =
      { s with recording := true, audio_data := s.pre_speech_buffer ++ [f] } := by
  simp [recogTrigger, hrec, hr]

theorem speechUpdate_pre_speech_buffer (s : TSState) (f : Frame) :
    (speechUpdate s f).pre_speech_buffer = s.pre_speech_buffer := by
  by_cases h : s.recording <;> simp [speechUpdate, h]

theorem speechUpdate_silence_start (s : TSState) (f : Frame) :
    (speechUpdate s f).silence_start = none := by
  by_cases h : s.recording <;> simp [speechUpdate, h]

theorem speechUpdate_recording (s : TSState) (f : Frame) :
    (speechUpdate s f).recording = true := by
  by_cases h : s.recording <;> simp [speechUpdate, h]

theorem speechUpdate_start {s : TSState} (f : Frame) (hr : s.recording = false) :
    speechUpdate s f =
      { s with recording := true, audio_data := s.pre_speech_buffer ++ [f],
               silence_start := none, last_voice_activity := some f.t } := by
  simp [speechUpdate, hr]

theorem updateBuffer_length_le {sr : ℕ} {buf : List Frame} (f : Frame)
    (h : buf.length ≤ 1 * sr / 8000) :
    (updateBuffer sr buf f).length ≤ 1 * sr / 8000 := by
  simp only [updateBuffer]
  split
  · simp
    omega
  · rename_i hc
    simp only [List.length_append, List.length_cons, List.length_nil, not_lt] at hc ⊢
    omega

theorem updateBuffer_full {sr : ℕ} {buf : List Frame} (f : Frame)
    (h : buf.length = 1 * sr / 8000) :
    updateBuffer sr buf f = (buf ++ [f]).drop 1 := by
  simp only [updateBuffer]
  split
  · rfl
  · rename_i hc
    exact absurd (by simp [h]) hc

theorem updateBuffer_getLast {sr : ℕ} (buf : List Frame) (f : Frame)
    (h : 1 ≤ 1 * sr / 8000) :
    (updateBuffer sr buf f).getLast? = some f := by
  simp only [updateBuffer]
  split
  · rename_i hc
    cases buf with
    | nil =>
      simp only [List.nil_append, List.length_cons, List.length_nil] at hc
      omega
    | cons b bt => simp [List.getLast?_concat]
  · simp [List.getLast?_concat]

theorem tsStep_next_pre {sr : ℕ} {s s' : TSState} {f : Frame}
    (h : tsStep sr s f = .ok (.next s')) :
    s'.pre_speech_buffer =
      if s.recording = true then s.pre_speech_buffer
      else updateBuffer sr s.pre_speech_buffer f := by
  by_cases hr : s.recording = true
  · cases hsp : is_speech f.data with
    | error e => simp [tsStep, hsp, hr] at h
    | ok b =>
      cases b
      · simp only [tsStep, hsp, hr, if_true] at h
        split at h
        · split at h <;> simp at h
        · injection h with h1
          injection h1 with h2
          subst h2
          simp [recogTrigger_pre_speech_buffer, hr]
      · simp only [tsStep, hsp, hr, if_true] at h
        injection h with h1
        injection h1 with h2
        subst h2
        simp [recogTrigger_pre_speech_buffer, speechUpdate_pre_speech_buffer, hr]
  · cases hsp : is_speech f.data with
    | error e => simp [tsStep, hsp, hr] at h
    | ok b =>
      cases b
      · simp only [tsStep, hsp, hr, if_false, Bool.false_eq_true, reduceIte] at h
        injection h with h1
        injection h1 with h2
        subst h2
        simp [recogTrigger_pre_speech_buffer, hr]
      · simp only [tsStep, hsp, hr, if_false, Bool.false_eq_true, reduceIte] at h
        injection h with h1
        injection h1 with h2
        subst h2
        simp [recogTrigger_pre_speech_buffer, speechUpdate_pre_speech_buffer, hr]

theorem tsStep_silence_inv {sr : ℕ} {s s' : TSState} {f : Frame}
    (h : tsStep sr s f = .ok (.next s'))
    (inv : s.silence_start.isSome = true → s.recording = true) :
    s'.silence_start.isSome = true → s'.recording = true := by
  by_cases hr : s.recording = true
  · cases hsp : is_speech f.data with
    | error e => simp [tsStep, hsp, hr] at h
    | ok b =>
      cases b
      · simp only [tsStep, hsp, hr, if_true] at h
        split at h
        · split at h <;> simp at h
        · injection h with h1
          injection h1 with h2
          subst h2
          intro _
          rw [recogTrigger_of_recording f (by simp [hr])]
      · simp only [tsStep, hsp, hr, if_true] at h
        injection h with h1
        injection h1 with h2
        subst h2
        intro _
        rw [recogTrigger_of_recording f (speechUpdate_recording s f)]
        exact speechUpdate_recording s f
  · have hnone : s.silence_start = none := by
      cases hss : s.silence_start with
      | none => rfl
      | some q => exact absurd (inv (by simp [hss])) hr
    cases hsp : is_speech f.data with
    | error e => simp [tsStep, hsp, hr] at h
    | ok b =>
      cases b
      · simp only [tsStep, hsp, hr, if_false, Bool.false_eq_true, reduceIte] at h
        injection h with h1
        injection h1 with h2
        subst h2
        rw [recogTrigger_silence_start]
        simp [hnone]
      · simp only [tsStep, hsp, hr, if_false, Bool.false_eq_true, reduceIte] at h
        injection h with h1
        injection h1 with h2
        subst h2
        rw [recogTrigger_silence_start]
        simp [speechUpdate_silence_start]

theorem tsStep_speech_clears {sr : ℕ} {s s' : TSState} {f : Frame}
    (h : tsStep sr s f = .ok (.next s')) (hsp : is_speech f.data = .ok true) :
    s'.silence_start = none := by
  by_cases hr : s.recording = true <;>
    simp only [tsStep, hsp, hr, if_true, if_false, Bool.false_eq_true, reduceIte] at h <;>
    (injection h with h1; injection h1 with h2; subst h2;
     rw [recogTrigger_silence_start, speechUpdate_silence_start])

theorem tsStep_start {sr : ℕ} {s s' : TSState} {f : Frame} (hr : s.recording = false)
    (h : tsStep sr s f = .ok (.next s')) (hrec : s'.recording = true) :
    s'.audio_data = s'.pre_speech_buffer ++ [f] ∧
      s'.pre_speech_buffer = updateBuffer sr s.pre_speech_buffer f := by
  have hr' : ¬ s.recording = true := by simp [hr]
  cases hsp : is_speech f.data with
  | error e => simp [tsStep, hsp, hr'] at h
  | ok b =>
    cases b
    · simp only [tsStep, hsp, hr', if_false, Bool.false_eq_true, reduceIte] at h
      injection h with h1
      injection h1 with h2
      subst h2
      by_cases hq : f.recResult = some true
      · rw [recogTrigger_start (by simp [hr]) hq]
        constructor <;> rfl
      · rw [recogTrigger_id_of_not hq] at hrec ⊢
        simp [hr] at hrec
    · simp only [tsStep, hsp, hr', if_false, Bool.false_eq_true, reduceIte] at h
      injection h with h1
      injection h1 with h2
      subst h2
      rw [speechUpdate_start f (by simp [hr])]
      rw [recogTrigger_of_recording _ (by simp)]
      constructor <;> rfl

theorem tsStep_no_trigger {sr : ℕ} {s : TSState} {f : Frame} (hr : s.recording = false)
    (hsp : is_speech f.data = .ok false) (hrec : ¬ f.recResult = some true) :
    tsStep sr s f =
      .ok (.next { s with pre_speech_buffer := updateBuffer sr s.pre_speech_buffer f }) := by
  have hr' : ¬ s.recording = true := by simp [hr]
  simp only [tsStep, hsp, hr', if_false, Bool.false_eq_true, reduceIte]
  rw [recogTrigger_id_of_not hrec]

theorem tsRun_preserves {sr : ℕ} (P : TSState → Prop)
    (hstep : ∀ s f s', tsStep sr s f = .ok (.next s') → P s → P s')
    (frames : List Frame) :
    ∀ s s' : TSState, P s → tsRun sr s frames = .ok (.inl s') → P s' := by
  induction frames with
  | nil =>
    intro s s' hP h
    simp only [tsRun] at h
    injection h with h1
    injection h1 with h2
    subst h2
    exact hP
  | cons f rest ih =>
    intro s s' hP h
    simp only [tsRun] at h
    cases hst : tsStep sr s f with
    | error e => rw [hst] at h; cases h
    | ok o =>
      cases o with
      | finalized seg => rw [hst] at h; simp at h
      | next s1 =>
        rw [hst] at h
        exact ih s1 s' (hstep s f s1 hst hP) h

theorem tsRun_no_trigger {sr : ℕ} (frames : List Frame) :
    ∀ s : TSState, s.recording = false →
      (∀ f ∈ frames, is_speech f.data = .ok false ∧ ¬ f.recResult = some true) →
      ∃ s', tsRun sr s frames = .ok (.inl s') ∧ s'.recording = false := by
  induction frames with
  | nil => exact fun s hr _ => ⟨s, rfl, hr⟩
  | cons f rest ih =>
    intro s hr hall
    obtain ⟨hsp, hrec⟩ := hall f (by simp)
    have hstep : tsStep sr s f =
        .ok (.next { s with pre_speech_buffer := updateBuffer sr s.pre_speech_buffer f }) :=
      tsStep_no_trigger hr hsp hrec
    obtain ⟨s', hrun, hfin⟩ :=
      ih { s with pre_speech_buffer := updateBuffer sr s.pre_speech_buffer f }
        (by simp [hr]) (fun g hg => hall g (by simp [hg]))
    refine ⟨s', ?_, hfin⟩
    simp only [tsRun]
    rw [hstep]
    exact hrun

/-! ### Helper lemmas about the `test.py` step -/

theorem pStep_silence_inv {s s' : PState} {f : Frame} (h : pStep s f = .inl s')
    (inv : s.silence_timer.isSome = true → s.recording = true) :
    s'.silence_timer.isSome = true → s'.recording = true := by
  rcases hb : f.recResult with _ | b
  · simp only [pStep, hb] at h
    split at h <;>
      (injection h with h1; subst h1; simp_all)
  · cases b
    · simp only [pStep, hb] at h
      split at h
      · rename_i hrec
        cases hst : s.silence_timer with
        | none =>
          simp only [hst] at h
          injection h with h1
          subst h1
          intro _
          exact hrec
        | some timer =>
          simp only [hst] at h
          split at h
          · cases h
          · injection h with h1
            subst h1
            exact inv
      · injection h with h1
        subst h1
        exact inv
    · simp only [pStep, hb] at h
      split at h <;> (injection h with h1; subst h1; simp)

theorem pStep_speech_clears {s s' : PState} {f : Frame} (hrec : f.recResult = some true)
    (h : pStep s f = .inl s') : s'.silence_timer = none := by
  simp only [pStep, hrec] at h
  split at h <;> (injection h with h1; subst h1; rfl)

theorem pStep_no_trigger {s : PState} {f : Frame} (hr : s.recording = false)
    (hrec : ¬ f.recResult = some true) : pStep s f = .inl s := by
  rcases hb : f.recResult with _ | b
  · simp [pStep, hb, hr]
  · cases b
    · simp [pStep, hb, hr]
    · exact absurd hb hrec

theorem pRun_preserves (P : PState → Prop)
    (hstep : ∀ s f s', pStep s f = .inl s' → P s → P s')
    (frames : List Frame) :
    ∀ s s' : PState, P s → pRun s frames = .inl s' → P s' := by
  induction frames with
  | nil =>
    intro s s' hP h
    simp only [pRun] at h
    injection h with h1
    subst h1
    exact hP
  | cons f rest ih =>
    intro s s' hP h
    simp only [pRun] at h
    cases hst : pStep s f with
    | inr seg => rw [hst] at h; cases h
    | inl s1 =>
      rw [hst] at h
      exact ih s1 s' (hstep s f s1 hst hP) h

theorem pRun_no_trigger (frames : List Frame) :
    ∀ s : PState, s.recording = false →
      (∀ f ∈ frames, ¬ f.recResult = some true) →
      pRun s frames = .inl s := by
  induction frames with
  | nil => exact fun s _ _ => rfl
  | cons f rest ih =>
    intro s hr hall
    have hstep := pStep_no_trigger hr (hall f (by simp))
    simp only [pRun]
    rw [hstep]
    exact ih s hr (fun g hg => hall g (by simp [hg]))

theorem copyChunks_eq (l : List ℕ) : copyChunks l = l := by
  induction l using copyChunks.induct with
  | case1 l h =>
    rw [copyChunks]
    simp [List.isEmpty_iff.mp h]
  | case2 l h ih =>
    rw [copyChunks, if_neg h, ih, List.take_append_drop]

end Vadpk

namespace Vadpk

/-! ### Claim theorems -/

/-- C1 (code bug in `testson.py`): the claim states that at
silence-timeout finalize every frame after (last speech timestamp +
1 s post-roll) is removed, so at most 1 s of trailing silence remains.
The code computes `frames_to_keep` — the number of frames inside the
post-roll window — but then REMOVES that many frames from the tail
(`audio_data[:len(audio_data) - frames_to_keep]`, line 114), the
opposite of its own comment "Son ses aktivitesinden sonraki 1 saniyeyi
dahil et".  Concretely, at sample rate 8000 with a speech block at
t = 0 and silent blocks at t = 1..5, the finalized segment keeps the
silent frames at t = 2, 3, 4, i.e. three extra seconds of silence after
the 1-second post-roll window, instead of ending at t = 1. -/
theorem c1_trim_bug_eval :
    tsRun 8000 initTS [spF 0, siF 1, siF 2, siF 3, siF 4, siF 5] =
      .ok (.inr [spF 0, spF 0, siF 1, siF 2, siF 3, siF 4]) := by
  norm_num [tsRun, tsStep, is_speech, parseInt16, toInt16, npAbs16, sumNpAbs,
    initTS, updateBuffer, recogTrigger, speechUpdate, trimmedSegment, pyInt,
    pySliceTo, spF, siF, min_def, Except.bind, show Int.toNat 6 = 6 from rfl]

/-- C2 (code bug in `test2.py`): the claim states that in append mode
finalize concatenates the new segment after the existing destination
content and fails fatally on a format mismatch, leaving the destination
unmodified.  `append_wave` actually opens the DESTINATION with mode
`'wb'`, which truncates it, copies only the temp file (the new
segment), and never compares parameters — contradicting its own
docstring "Append temporary .wav file to final .wav file".  Concretely,
with a pre-existing `output.wav` (rate 16000, frames `[7, 7, 7]`) and a
new segment `[9, 9]` recorded at rate 8000, finalize succeeds (no
error) and the destination afterwards holds only `[9, 9]` at rate 8000:
the old audio is destroyed and the sample-rate mismatch is silently
accepted. -/
theorem c2_append_bug_eval :
    t2Finalize [("output.wav", ⟨1, 2, 16000, [7, 7, 7]⟩)] "output.wav" [[9, 9]] 8000 =
      .ok [("output.wav", ⟨1, 2, 8000, [9, 9]⟩),
           ("temp_output.wav", ⟨1, 2, 8000, [9, 9]⟩),
           ("output.wav", ⟨1, 2, 16000, [7, 7, 7]⟩)] ∧
    fsGet [("output.wav", ⟨1, 2, 8000, [9, 9]⟩),
           ("temp_output.wav", ⟨1, 2, 8000, [9, 9]⟩),
           ("output.wav", ⟨1, 2, 16000, [7, 7, 7]⟩)] "output.wav" =
      some ⟨1, 2, 8000, [9, 9]⟩ := by
  constructor
  · simp [t2Finalize, write_wave, append_wave, fsGet, fsSet, copyChunks_eq, List.find?]
  · simp [fsGet, List.find?]

/-- C3 counterexample: the claim states a detector failure is treated
as a silence verdict and the loop continues with subsequent frames.  On
the concrete input below, the malformed (odd-length) first frame makes
`np.frombuffer` raise inside `is_speech`; the exception reaches the
top-level handler and the process exits — the well-formed second frame
is never processed. -/
theorem c3_counterexample :
    tsRun 8000 initTS [⟨0, [0], none⟩, ⟨1, [0, 0], none⟩] =
      .error "ValueError: buffer size must be a multiple of element size" := by
  rfl

/-- C3 amended: a detector failure on a frame is NOT converted to a
silence verdict; it propagates out of the capture loop to the top-level
`except Exception` handler, which terminates the process reporting the
error, and no subsequent frame is processed. -/
theorem c3_amended (sr : ℕ) (s : TSState) (f : Frame) (rest : List Frame) (e : String)
    (h : is_speech f.data = .error e) :
    tsRun sr s (f :: rest) = .error e := by
  simp [tsRun, tsStep, h]

/-- C3 amended, witness at a concrete malformed frame. -/
theorem c3_amended_witness :
    tsRun 8000 initTS [⟨0, [0], none⟩] =
      .error "ValueError: buffer size must be a multiple of element size" :=
  c3_amended 8000 initTS ⟨0, [0], none⟩ [] _ (by rfl)

/-- C4 (code bug in `testson.py`): the claim states that in every
variant a recording ends via the silence path exactly when continuous
silence exceeds the configured silence-duration, 2 seconds by default.
`testson.py` line 109 compares the elapsed silence against a hardcoded
`3` while its own comment on the same line says "2 saniye sessizlik"
(2 seconds of silence).  Concretely (sample rate 8000, speech at t = 0,
silence starting at t = 1): at t = 3.5 the machine has seen 2.5 s of
continuous silence — more than 2 s — yet is still recording; only a
frame at t = 4.2 (3.2 s of silence) finalizes the segment. -/
theorem c4_silence_duration_bug_eval :
    tsRun 8000 initTS [spF 0, siF 1, siF (7/2)] =
      .ok (.inl { recording := true,
                  audio_data := [spF 0, spF 0, siF 1, siF (7/2)],
                  silence_start := some 1,
                  last_voice_activity := some 0,
                  pre_speech_buffer := [spF 0] }) ∧
    tsRun 8000 initTS [spF 0, siF 1, siF (21/5)] =
      .ok (.inr [spF 0, spF 0, siF 1]) := by
  constructor
  · norm_num [tsRun, tsStep, is_speech, parseInt16, toInt16, npAbs16, sumNpAbs,
      initTS, updateBuffer, recogTrigger, speechUpdate, trimmedSegment, pyInt,
      pySliceTo, spF, siF, min_def, Except.bind]
  · norm_num [tsRun, tsStep, is_speech, parseInt16, toInt16, npAbs16, sumNpAbs,
      initTS, updateBuffer, recogTrigger, speechUpdate, trimmedSegment, pyInt,
      pySliceTo, spF, siF, min_def, Except.bind, show Int.toNat 3 = 3 from rfl]

/-- C5 counterexample: the claim states that on EVERY IDLE to RECORDING
transition the Segment is initialized as (pre-roll buffer contents) +
(current frame).  In `test.py` (cited by the claim) there is no
pre-roll buffer: after one idle frame at t = 0 and a speech-verdict
frame at t = 1, the segment is just the current frame, whereas the
spec's pre-roll rule (default 1 s, sample rate 8000, so capacity 1)
would make it the idle frame followed by the current frame. -/
theorem c5_counterexample :
    pRun pInit [⟨0, [0, 0], some false⟩, ⟨1, [232, 3], some true⟩] =
      .inl { recording := true, audio_data := [⟨1, [232, 3], some true⟩],
             silence_timer := none } ∧
    specInitSegment 8000 [⟨0, [0, 0], some false⟩] ⟨1, [232, 3], some true⟩ =
      [⟨0, [0, 0], some false⟩, ⟨1, [232, 3], some true⟩] ∧
    ([⟨1, [232, 3], some true⟩] : List Frame) ≠
      [⟨0, [0, 0], some false⟩, ⟨1, [232, 3], some true⟩] := by
  refine ⟨by rfl, by rfl, fun hcontra => ?_⟩
  simpa using congrArg List.length hcontra

/-- C5 amended: only the amplitude variant `testson.py` starts the
Segment as (pre-roll buffer contents) + (current frame) — and it does
so on both start triggers; the recognizer-only variant `test.py`
maintains no pre-roll buffer and starts the Segment as just the current
frame. -/
theorem c5_amended :
    (∀ (sr : ℕ) (s s' : TSState) (f : Frame), s.recording = false →
        tsStep sr s f = .ok (.next s') → s'.recording = true →
        s'.audio_data = s'.pre_speech_buffer ++ [f]) ∧
    (∀ (s : PState) (f : Frame), s.recording = false → f.recResult = some true →
        pStep s f = .inl { recording := true, audio_data := [f], silence_timer := none }) := by
  constructor
  · intro sr s s' f hr h hrec
    exact (tsStep_start hr h hrec).1
  · intro s f hr hrec
    simp [pStep, hrec, hr]

/-- C5 amended, witness: the amplitude variant started by the speech
frame at t = 0, and the `test.py` start on a speech-verdict frame. -/
theorem c5_amended_witness :
    ({ recording := true, audio_data := [spF 0, spF 0], silence_start := none,
       last_voice_activity := some 0, pre_speech_buffer := [spF 0] } : TSState).audio_data =
      ({ recording := true, audio_data := [spF 0, spF 0], silence_start := none,
         last_voice_activity := some 0, pre_speech_buffer := [spF 0] } : TSState).pre_speech_buffer
        ++ [spF 0] ∧
    pStep pInit ⟨1, [232, 3], some true⟩ =
      .inl { recording := true, audio_data := [⟨1, [232, 3], some true⟩],
             silence_timer := none } :=
  ⟨c5_amended.1 8000 initTS _ (spF 0) rfl (by rfl) rfl,
   c5_amended.2 pInit ⟨1, [232, 3], some true⟩ rfl rfl⟩

/-- C6 counterexample: the claim states the amplitude detector returns
speech iff the mean of the absolute values of the 16-bit samples
strictly exceeds the threshold (default 500).  For the frame
`[0, 128]`, i.e. the single sample -32768, the true mean absolute value
is 32768 > 500, yet the detector answers silence, because `np.abs` on
an int16 array overflows: `abs(-32768) = -32768`. -/
theorem c6_counterexample :
    parseInt16 [0, 128] = .ok [-32768] ∧
    is_speech [0, 128] = .ok false ∧
    specAmpVerdict [-32768] = true := by
  refine ⟨by rfl, by rfl, by rfl⟩

/-- C6 amended: the detector returns speech iff the mean of the
numpy-int16 absolute values (which wrap at -32768) strictly exceeds the
threshold; equivalently, the claim as stated holds for every frame none
of whose samples equals -32768.  It remains a pure function of the
frame alone. -/
theorem c6_amended (data : List ℕ) (samples : List ℤ)
    (hparse : parseInt16 data = .ok samples)
    (hno : ∀ x ∈ samples, x ≠ -32768) :
    is_speech data = .ok (specAmpVerdict samples) := by
  have hsum : sumNpAbs samples = (samples.map (fun x => (x.natAbs : ℤ))).sum := by
    unfold sumNpAbs
    congr 1
    apply List.map_congr_left
    intro x hx
    unfold npAbs16
    rw [if_neg (hno x hx)]
  simp [is_speech, hparse, specAmpVerdict, hsum, Except.bind]

/-- C6 amended, witness at the one-sample frame of value 1000. -/
theorem c6_amended_witness :
    is_speech [232, 3] = .ok (specAmpVerdict [1000]) :=
  c6_amended [232, 3] [1000] (by rfl) (by decide)

/-- C7: after each processed frame the pre-roll buffer holds at most
N = 1 * sample_rate / 8000 frames (floor division: pre-roll duration
1 s times rate over block size 8000); while idle the buffer after a
step is exactly the ring-buffer update, and on overflow (buffer full)
the oldest frame is the one evicted. -/
theorem c7_preroll_bound :
    (∀ (sr : ℕ) (frames : List Frame) (s' : TSState),
        tsRun sr initTS frames = .ok (.inl s') →
        s'.pre_speech_buffer.length ≤ 1 * sr / 8000) ∧
    (∀ (sr : ℕ) (s s' : TSState) (f : Frame), s.recording = false →
        tsStep sr s f = .ok (.next s') →
        s'.pre_speech_buffer = updateBuffer sr s.pre_speech_buffer f) ∧
    (∀ (sr : ℕ) (buf : List Frame) (f : Frame), buf.length = 1 * sr / 8000 →
        updateBuffer sr buf f = (buf ++ [f]).drop 1) := by
  refine ⟨?_, ?_, ?_⟩
  · intro sr frames s' hrun
    refine tsRun_preserves (fun s => s.pre_speech_buffer.length ≤ 1 * sr / 8000)
      ?_ frames initTS s' (by simp [initTS]) hrun
    intro s f s1 hst hP
    rw [tsStep_next_pre hst]
    split
    · exact hP
    · exact updateBuffer_length_le f hP
  · intro sr s s' f hr hst
    rw [tsStep_next_pre hst, if_neg (by simp [hr])]
  · intro sr buf f hfull
    exact updateBuffer_full f hfull

/-- C7 witness: one idle silent frame at rate 8000 leaves a buffer of
length 1 = N, and a further frame evicts the oldest. -/
theorem c7_preroll_bound_witness :
    ({ recording := false, audio_data := [], silence_start := none,
       last_voice_activity := none,
       pre_speech_buffer := [siF 0] } : TSState).pre_speech_buffer.length ≤ 1 * 8000 / 8000 ∧
    updateBuffer 8000 [siF 0] (siF 1) = ([siF 0] ++ [siF 1]).drop 1 :=
  ⟨c7_preroll_bound.1 8000 [siF 0] _ (by rfl),
   c7_preroll_bound.2.2 8000 [siF 0] (siF 1) (by rfl)⟩

/-- C8: in both `testson.py` and `test.py`, whenever the silence timer
is set the machine is RECORDING (it is absent while idle), and any
speech verdict clears it immediately. -/
theorem c8_silence_timer_invariant :
    (∀ (sr : ℕ) (frames : List Frame) (s' : TSState),
        tsRun sr initTS frames = .ok (.inl s') →
        s'.silence_start.isSome = true → s'.recording = true) ∧
    (∀ (sr : ℕ) (s s' : TSState) (f : Frame),
        tsStep sr s f = .ok (.next s') → is_speech f.data = .ok true →
        s'.silence_start = none) ∧
    (∀ (frames : List Frame) (s' : PState),
        pRun pInit frames = .inl s' →
        s'.silence_timer.isSome = true → s'.recording = true) ∧
    (∀ (s s' : PState) (f : Frame), f.recResult = some true →
        pStep s f = .inl s' → s'.silence_timer = none) := by
  refine ⟨?_, ?_, ?_, ?_⟩
  · intro sr frames s' hrun
    exact tsRun_preserves (fun s => s.silence_start.isSome = true → s.recording = true)
      (fun s f s1 hst inv => tsStep_silence_inv hst inv) frames initTS s'
      (by simp [initTS]) hrun
  · exact fun sr s s' f h hsp => tsStep_speech_clears h hsp
  · intro frames s' hrun
    exact pRun_preserves (fun s => s.silence_timer.isSome = true → s.recording = true)
      (fun s f s1 hst inv => pStep_silence_inv hst inv) frames pInit s'
      (by simp [pInit]) hrun
  · exact fun s s' f hrec h => pStep_speech_clears hrec h

/-- C8 witness: a run that arms the timer is recording, and a
speech-verdict step leaves the `test.py` timer cleared. -/
theorem c8_silence_timer_invariant_witness :
    ({ recording := true, audio_data := [spF 0, spF 0, siF 1], silence_start := some 1,
       last_voice_activity := some 0,
       pre_speech_buffer := [spF 0] } : TSState).recording = true ∧
    ({ recording := true, audio_data := [⟨1, [232, 3], some true⟩],
       silence_timer := none } : PState).silence_timer = none :=
  ⟨c8_silence_timer_invariant.1 8000 [spF 0, siF 1] _
      (by norm_num [tsRun, tsStep, is_speech, parseInt16, toInt16, npAbs16, sumNpAbs,
        initTS, updateBuffer, recogTrigger, speechUpdate, spF, siF, Except.bind])
      (by rfl),
   c8_silence_timer_invariant.2.2.2 pInit _ ⟨1, [232, 3], some true⟩ rfl (by rfl)⟩

/-- C9: on user interruption, a RECORDING state writes exactly the
accumulated Segment once, untrimmed, and exits with status 0; an IDLE
state writes nothing — in particular a run that never saw a speech
trigger ends idle and the sink is never invoked (shown for both
`testson.py` and `test.py`). -/
theorem c9_interrupt_finalize :
    (∀ s : TSState, s.recording = true → interruptWrites s = ([s.audio_data], 0)) ∧
    (∀ s : TSState, s.recording = false → interruptWrites s = ([], 0)) ∧
    (∀ (sr : ℕ) (frames : List Frame) (s' : TSState),
        (∀ f ∈ frames, is_speech f.data = .ok false ∧ ¬ f.recResult = some true) →
        tsRun sr initTS frames = .ok (.inl s') → interruptWrites s' = ([], 0)) ∧
    (∀ s : PState, s.recording = true → pInterruptWrites s = ([s.audio_data], 0)) ∧
    (∀ (frames : List Frame) (s' : PState),
        (∀ f ∈ frames, ¬ f.recResult = some true) →
        pRun pInit frames = .inl s' → pInterruptWrites s' = ([], 0)) := by
  refine ⟨?_, ?_, ?_, ?_, ?_⟩
  · intro s h
    simp [interruptWrites, h]
  · intro s h
    simp [interruptWrites, h]
  · intro sr frames s' hall hrun
    obtain ⟨s2, hrun2, hrec2⟩ := tsRun_no_trigger frames initTS rfl hall
    rw [hrun] at hrun2
    injection hrun2 with h1
    injection h1 with h2
    rw [h2]
    simp [interruptWrites, hrec2]
  · intro s h
    simp [pInterruptWrites, h]
  · intro frames s' hall hrun
    have h0 := pRun_no_trigger frames pInit rfl hall
    rw [hrun] at h0
    injection h0 with h1
    rw [h1]
    simp [pInterruptWrites, pInit]

/-- C9 witness: concrete recording and idle states for the interrupt
handler, and an all-silent run that ends idle with nothing written. -/
theorem c9_interrupt_finalize_witness :
    interruptWrites { recording := true, audio_data := [spF 0], silence_start := none,
                      last_voice_activity := none, pre_speech_buffer := [] } = ([[spF 0]], 0) ∧
    interruptWrites initTS = ([], 0) ∧
    interruptWrites { recording := false, audio_data := [], silence_start := none,
                      last_voice_activity := none, pre_speech_buffer := [siF 0] } = ([], 0) ∧
    pInterruptWrites { recording := true, audio_data := [siF 0], silence_timer := none } =
      ([[siF 0]], 0) ∧
    pInterruptWrites pInit = ([], 0) :=
  ⟨c9_interrupt_finalize.1 _ rfl,
   c9_interrupt_finalize.2.1 _ rfl,
   c9_interrupt_finalize.2.2.1 8000 [siF 0] _
     (by
       intro f hf
       rw [List.mem_singleton] at hf
       subst hf
       exact ⟨by rfl, by simp [siF]⟩)
     (by rfl),
   c9_interrupt_finalize.2.2.2.1 _ rfl,
   c9_interrupt_finalize.2.2.2.2 [⟨0, [0, 0], some false⟩] _
     (by
       intro f hf
       rw [List.mem_singleton] at hf
       subst hf
       simp)
     (by rfl)⟩

/-- C10: in `testson.py`, whenever recording starts while idle (either
trigger) and the pre-roll capacity is at least 1 (sample rate at least
8000), the triggering frame is duplicated: the initial Segment is the
pre-roll buffer — whose last element is the triggering frame itself,
appended at lines 89-91 before the verdict was evaluated — followed by
the triggering frame again. -/
theorem c10_duplicate_trigger_frame (sr : ℕ) (s s' : TSState) (f : Frame)
    (hsr : 8000 ≤ sr) (hr : s.recording = false)
    (h : tsStep sr s f = .ok (.next s')) (hrec : s'.recording = true) :
    s'.audio_data = s'.pre_speech_buffer ++ [f] ∧
    s'.pre_speech_buffer.getLast? = some f := by
  obtain ⟨ha, hb⟩ := tsStep_start hr h hrec
  refine ⟨ha, ?_⟩
  rw [hb]
  refine updateBuffer_getLast _ _ ?_
  rw [one_mul]
  exact (Nat.one_le_div_iff (by norm_num)).mpr hsr

/-- C10 witness: the speech frame at t = 0 starting the recording at
rate 8000 appears as the last pre-roll element and again as the
appended current frame. -/
theorem c10_duplicate_trigger_frame_witness :
    ({ recording := true, audio_data := [spF 0, spF 0], silence_start := none,
       last_voice_activity := some 0, pre_speech_buffer := [spF 0] } : TSState).audio_data =
      ({ recording := true, audio_data := [spF 0, spF 0], silence_start := none,
         last_voice_activity := some 0,
         pre_speech_buffer := [spF 0] } : TSState).pre_speech_buffer ++ [spF 0] ∧
    ({ recording := true, audio_data := [spF 0, spF 0], silence_start := none,
       last_voice_activity := some 0,
       pre_speech_buffer := [spF 0] } : TSState).pre_speech_buffer.getLast? = some (spF 0) :=
  c10_duplicate_trigger_frame 8000 initTS _ (spF 0) (by norm_num) rfl (by rfl) rfl

end Vadpk
